import Mathlib

/-!
Shallow embedding of the multi-source acquisition pipeline of the
lol_coach_app backend (the POST /api/summoner handler and its source
adapters), together with proofs of the specification claims.

Numbers are modelled as rationals (ℚ).  JavaScript produces NaN on the
division 0/0; whenever a source expression can divide by zero we model the
result as `Option ℚ`, with `none` standing for NaN (NaN propagates through
+, *, Math.round, Math.min and Math.max exactly as `Option.map` does).
Expressions whose denominators are guarded by the source code itself are
modelled with plain rational division.
-/

namespace LolCoach

/-- JavaScript Math.round on a finite number: round half toward +∞. -/
def jsRound (q : ℚ) : ℤ := ⌊q + 1/2⌋

/-- The five data-source identifiers of the DATA_SOURCES table that can
appear in the attempt list (data_dragon never enters the list). -/
inductive Source
  | riot_api
  | opgg
  | mobalytics
  | league_of_graphs
deriving DecidableEq, Repr

/-- The string constant each DATA_SOURCES member holds. -/
def Source.name : Source → String
  | .riot_api => "riot_api"
  | .opgg => "opgg"
  | .mobalytics => "mobalytics"
  | .league_of_graphs => "league_of_graphs"

/-- A ranked-queue entry as the JS objects flow through the handler.  The
adapters disagree on the key that holds the queue identifier: the Riot API
returns `queueType`, while the OP.GG and Mobalytics scrapers build objects
with the key `queue`.  Absent keys are `none`. -/
structure RankedEntry where
  queueType : Option String
  queue : Option String
  tier : String
  rank : String
  leaguePoints : ℚ
  wins : ℕ
  losses : ℕ
deriving DecidableEq, Repr

/-- A match record as the adapters construct it
({champion_name, win, kills, deaths, assists, cs_per_minute}). -/
structure MatchRecord where
  champion_name : String
  win : Bool
  kills : ℕ
  deaths : ℕ
  assists : ℕ
  cs_per_minute : ℚ
deriving DecidableEq, Repr

/-- The rankBonus lookup table of calculateOPScore;
`rankBonus[tier] || 0` yields 0 for a missing key (and for BRONZE, whose
stored value 0 is falsy, the `|| 0` also yields 0). -/
def rankBonus : String → ℚ
  | "CHALLENGER" => 25
  | "GRANDMASTER" => 23
  | "MASTER" => 20
  | "DIAMOND" => 15
  | "PLATINUM" => 10
  | "GOLD" => 5
  | "SILVER" => 2
  | "BRONZE" => 0
  | "IRON" => -5
  | _ => 0

/-- Per-match KDA: (kills + assists) / Math.max(deaths, 1). -/
def matchKDA (m : MatchRecord) : ℚ := ((m.kills : ℚ) + m.assists) / max (m.deaths : ℚ) 1

/-- calculateOPScore from the backend server.  Base 50; if a ranked entry
with queueType === "RANKED_SOLO_5x5" exists, add winRate*30 plus the tier
bonus; if matches exist, add min(avgKDA*8,25) + min(avgCS*2,15) over the 10
most recent matches; finally Math.round then clamp to [0,100].  When the
solo-queue entry has wins + losses = 0 the JS division produces NaN, which
survives rounding and clamping: modelled by `none`. -/
def calculateOPScore (matchData : List MatchRecord) (rankedData : List RankedEntry) :
    Option ℤ :=
  let rankedPart : Option ℚ :=
    match rankedData.find? (fun q => q.queueType = some "RANKED_SOLO_5x5") with
    | none => some 0
    | some soloQueue =>
        if soloQueue.wins + soloQueue.losses = 0 then none
        else
          some ((soloQueue.wins : ℚ) / ((soloQueue.wins : ℚ) + (soloQueue.losses : ℚ)) * 30
            + rankBonus soloQueue.tier)
  let matchPart : ℚ :=
    if matchData.isEmpty then 0
    else
      let recentMatches := matchData.take 10
      let avgKDA := (recentMatches.map matchKDA).sum / (recentMatches.length : ℚ)
      let avgCS := (recentMatches.map (fun m => m.cs_per_minute)).sum /
        (recentMatches.length : ℚ)
      min (avgKDA * 8) 25 + min (avgCS * 2) 15
  rankedPart.map (fun rp => min (max (jsRound (50 + rp + matchPart)) 0) 100)

/-- Aggregate statistics of a source result; `none` models NaN. -/
structure Statistics where
  winRate : Option ℚ
  avgKDA : Option ℚ
  avgCS : Option ℚ
deriving DecidableEq, Repr

/-- The summoner block of an adapter result. -/
structure RawSummoner where
  name : String
  tagLine : String
  level : Option ℕ
  profileIconId : Option ℕ
  region : String
deriving DecidableEq, Repr

/-- An adapter result (scrapedData) as the handler consumes it: the
summoner block, ranked entries, matches and aggregate statistics.
Adapter-specific extras (sourceUrl, raw insights, opScore placeholder) are
not read by the handler and are omitted. -/
structure RawData where
  summoner : RawSummoner
  ranked : List RankedEntry
  «matches» : List MatchRecord
  statistics : Statistics
deriving DecidableEq, Repr

/-- An insight item {type, title, description, priority}. -/
structure InsightItem where
  type : String
  title : String
  description : String
  priority : ℕ
deriving DecidableEq, Repr

/-- JavaScript String.prototype.toLowerCase (ASCII range), written via
List.map so that it evaluates inside the kernel. -/
def toLowerCase (s : String) : String := String.mk (s.data.map Char.toLower)

/-- normalizedSource = (dataSource || "all").toLowerCase(); `none` models a
request body without the field (the parameter default "all"). -/
def normalizeSource : Option String → String
  | none => "all"
  | some s => if s = "" then "all" else toLowerCase s

/-- Construction of sourcesToTry in the POST /api/summoner handler:
riot_api first when useRiotApi && (normalizedSource === "all" ||
normalizedSource === "riot_api"); then the fixed priority order
[opgg, mobalytics, league_of_graphs] when normalizedSource === "all", or
the single named scraping source. -/
def buildSourcesToTry (useRiotApi : Bool) (dataSource : Option String) : List Source :=
  let ns := normalizeSource dataSource
  (if useRiotApi ∧ (ns = "all" ∨ ns = "riot_api") then [Source.riot_api] else []) ++
  (if ns = "all" then [Source.opgg, Source.mobalytics, Source.league_of_graphs]
   else if ns = "opgg" then [Source.opgg]
   else if ns = "mobalytics" then [Source.mobalytics]
   else if ns = "league_of_graphs" then [Source.league_of_graphs]
   else [])

/-- Observable outcome of the for-loop over sourcesToTry: the loop result
(successfulSource with its scrapedData, or none), the failedSources array,
and the trace of sources whose adapter was actually invoked. -/
structure LoopResult where
  result : Option (Source × RawData)
  failedSources : List Source
  invoked : List Source
deriving DecidableEq, Repr

/-- The for-loop over sourcesToTry: call each source through its adapter
(the oracle `fetch` gives `some data` on success, `none` on a thrown
error); on success break immediately, on failure push the source onto
failedSources and continue. -/
def attemptLoop (fetch : Source → Option RawData) : List Source → LoopResult
  | [] => ⟨none, [], []⟩
  | s :: rest =>
    match fetch s with
    | some d => ⟨some (s, d), [], [s]⟩
    | none =>
        let r := attemptLoop fetch rest
        ⟨r.result, s :: r.failedSources, s :: r.invoked⟩

/-- The scrapedInsights list built in the handler for a successful
non-static source: one data_source insight, plus a performance insight when
statistics.winRate is a number and > 0.6 or < 0.4.  (Display titles are
abbreviated to their text core.) -/
def scrapedInsights (successfulSource : Source) (data : RawData) : List InsightItem :=
  [{ type := "data_source", title := "Using " ++ successfulSource.name,
     description := "Data is retrieved from public sources. Some advanced features may be limited.",
     priority := 3 }] ++
  (match data.statistics.winRate with
   | none => []
   | some winRate =>
       if winRate > 6/10 then
         [{ type := "performance", title := "Strong Performance",
            description := "Your win rate shows strong performance. Keep up the good work!",
            priority := 1 }]
       else if winRate < 4/10 then
         [{ type := "performance", title := "Room for Improvement",
            description := "Focus on consistency and game fundamentals.",
            priority := 1 }]
       else [])

/-- The JSON profile body returned on a normal (non-static) success.  The
sanitized puuid string and the staticData block are not modelled. -/
structure ProfileResponse where
  summonerName : String
  summonerTagLine : String
  summonerLevel : ℕ
  summonerProfileIconId : ℕ
  summonerRegion : String
  ranked : List RankedEntry
  «matches» : List MatchRecord
  insights : List InsightItem
  opScore : Option ℤ
  statistics : Statistics
  dataSource : String
  failedSources : List String
deriving DecidableEq, Repr

/-- The JSON body returned when every listed source failed but Data Dragon
succeeded (an HTTP 200 response). -/
structure StaticFallbackResponse where
  error : String
  summonerName : String
  summonerTagLine : String
  summonerLevel : ℕ
  summonerRegion : String
  ranked : List RankedEntry
  «matches» : List MatchRecord
  insights : List InsightItem
  opScore : Option ℤ
  statistics : Statistics
  dataSource : String
  failedSources : List String
deriving DecidableEq, Repr

/-- The HTTP 503 error envelope returned when Data Dragon also failed. -/
structure ErrorEnvelope where
  error : String
  details : String
  failedSources : List String
  summonerName : String
  summonerTagLine : String
deriving DecidableEq, Repr

/-- The single explanatory insight of the Data Dragon fallback response. -/
def staticDataInsight : InsightItem :=
  { type := "error"
    title := "Limited Static Data Only"
    description := "Only static game data is available. Player-specific data could not be retrieved."
    priority := 1 }

/-- The three response shapes of POST /api/summoner. -/
inductive SummonerResult
  | profile (p : ProfileResponse)
  | staticFallback (p : StaticFallbackResponse)
  | totalFailure (e : ErrorEnvelope)
deriving DecidableEq, Repr

/-- The POST /api/summoner handler after input validation: build the
attempt list, run the loop, and produce one of the three response shapes.
`dragonOk` is the outcome of the fetchFromDataDragon call. -/
def handleSummoner (summonerName tagLine region : String) (useRiotApi : Bool)
    (dataSource : Option String) (fetch : Source → Option RawData) (dragonOk : Bool) :
    SummonerResult :=
  let sourcesToTry := buildSourcesToTry useRiotApi dataSource
  let r := attemptLoop fetch sourcesToTry
  let failedSources := r.failedSources
  match r.result with
  | some (successfulSource, scrapedData) =>
      .profile
        { summonerName := scrapedData.summoner.name
          summonerTagLine := scrapedData.summoner.tagLine
          summonerLevel := scrapedData.summoner.level.getD 0
          summonerProfileIconId := scrapedData.summoner.profileIconId.getD 0
          summonerRegion := scrapedData.summoner.region
          ranked := scrapedData.ranked
          «matches» := scrapedData.«matches»
          insights := scrapedInsights successfulSource scrapedData
          opScore := calculateOPScore scrapedData.«matches» scrapedData.ranked
          statistics := scrapedData.statistics
          dataSource := successfulSource.name
          failedSources := failedSources.map Source.name }
  | none =>
      if dragonOk then
        .staticFallback
          { error := "Limited static data only"
            summonerName := summonerName
            summonerTagLine := tagLine
            summonerLevel := 0
            summonerRegion := region
            ranked := []
            «matches» := []
            insights := [staticDataInsight]
            opScore := some 0
            statistics := { winRate := some 0, avgKDA := some 0, avgCS := some 0 }
            dataSource := "data_dragon"
            failedSources := failedSources.map Source.name }
      else
        .totalFailure
          { error := "All data sources unavailable"
            details := "Unable to retrieve data from any source. Please try again later."
            failedSources := failedSources.map Source.name
            summonerName := summonerName
            summonerTagLine := tagLine }

/-! ### Retry executors (services/riotApi.js makeRiotAPICall, and the
catch-block retries of the scrapers) -/

/-- Outcome of one underlying HTTP attempt of makeRiotAPICall: success, or
a failure carrying the response status (`none` = no response, i.e. a
network error) and the retry-after header value when one is present. -/
inductive RiotAttempt
  | ok
  | fail (status : Option ℕ) (retryAfter : Option ℚ)
deriving DecidableEq, Repr

/-- error.response?.status === 429. -/
def RiotAttempt.isRateLimited : RiotAttempt → Bool
  | .fail (some s) _ => s = 429
  | _ => false

/-- error.response?.status >= 500. -/
def RiotAttempt.isServerError : RiotAttempt → Bool
  | .fail (some s) _ => 500 ≤ s
  | _ => false

/-- No response object received: !error.response. -/
def RiotAttempt.isNetworkError : RiotAttempt → Bool
  | .fail none _ => true
  | _ => false

/-- isRateLimited || isServerError || isNetworkError. -/
def RiotAttempt.isRetryable (a : RiotAttempt) : Bool :=
  a.isRateLimited || a.isServerError || a.isNetworkError

/-- error.response.headers of the retry-after header. -/
def RiotAttempt.retryAfterHeader : RiotAttempt → Option ℚ
  | .fail _ ra => ra
  | .ok => none

/-- baseDelay = 1000 (milliseconds). -/
def riotBaseDelay : ℚ := 1000

/-- maxRetries = 5 in makeRiotAPICall. -/
def riotMaxRetries : ℕ := 5

/-- The delay computed before a retry in makeRiotAPICall:
retryDelay = baseDelay * 2^retryCount, overwritten for a rate-limited
failure by (error.response.headers of retry-after || 1) * 1000. -/
def riotRetryDelay (a : RiotAttempt) (retryCount : ℕ) : ℚ :=
  if a.isRateLimited then (a.retryAfterHeader.getD 1) * 1000
  else riotBaseDelay * 2 ^ retryCount

/-- Observable trace of one makeRiotAPICall invocation: whether it
resolved, how many underlying fetch calls it made, and the sleep delays it
inserted between consecutive attempts. -/
structure RetryRun where
  succeeded : Bool
  calls : ℕ
  delays : List ℚ
deriving DecidableEq, Repr

/-- makeRiotAPICall as a recursion over the attempt oracle `outcome`
(attempt k is the k-th underlying fetch).  `remaining` counts the retries
still allowed: the source guard retryCount < maxRetries holds iff
remaining > 0 when remaining = maxRetries - retryCount. -/
def makeRiotAPICallRun (outcome : ℕ → RiotAttempt) :
    ℕ → ℕ → RetryRun
  | remaining, retryCount =>
    match outcome retryCount with
    | .ok => { succeeded := true, calls := 1, delays := [] }
    | .fail st ra =>
        if (RiotAttempt.fail st ra).isRetryable then
          match remaining with
          | 0 => { succeeded := false, calls := 1, delays := [] }
          | r + 1 =>
              let rest := makeRiotAPICallRun outcome r (retryCount + 1)
              { succeeded := rest.succeeded, calls := rest.calls + 1,
                delays := riotRetryDelay (.fail st ra) retryCount :: rest.delays }
        else { succeeded := false, calls := 1, delays := [] }

/-- makeRiotAPICall entered with retryCount = 0. -/
def makeRiotAPICall (outcome : ℕ → RiotAttempt) : RetryRun :=
  makeRiotAPICallRun outcome riotMaxRetries 0

/-- Outcome of one scraping attempt: success or a thrown error carrying
error.message and error.code. -/
inductive ScrapeAttempt
  | ok
  | fail (message : String) (code : Option String)
deriving DecidableEq, Repr

/-- error.code === "ECONNRESET". -/
def ScrapeAttempt.isConnReset : ScrapeAttempt → Bool
  | .fail _ (some c) => c = "ECONNRESET"
  | _ => false

/-- error.code === "ETIMEDOUT". -/
def ScrapeAttempt.isTimedOut : ScrapeAttempt → Bool
  | .fail _ (some c) => c = "ETIMEDOUT"
  | _ => false

/-- The scrapers retry only when error.code === "ECONNRESET" ||
error.code === "ETIMEDOUT". -/
def ScrapeAttempt.isRetryable (a : ScrapeAttempt) : Bool :=
  a.isConnReset || a.isTimedOut

/-- maxRetries = 3 in scrapeOPGG (and the other scrapers). -/
def scrapeMaxRetries : ℕ := 3

/-- The scrapeOPGG retry recursion (maxRetries = 3, sleep
2000 * (retryCount + 1) before each retry).  `remaining` counts the retries
still allowed: the source guard retryCount < maxRetries holds iff
remaining > 0 when remaining = maxRetries - retryCount; with remaining = 0
a failure propagates after its single call whether retryable or not. -/
def scrapeOPGGRun (outcome : ℕ → ScrapeAttempt) : ℕ → ℕ → RetryRun
  | 0, retryCount =>
    match outcome retryCount with
    | .ok => { succeeded := true, calls := 1, delays := [] }
    | .fail _ _ => { succeeded := false, calls := 1, delays := [] }
  | r + 1, retryCount =>
    match outcome retryCount with
    | .ok => { succeeded := true, calls := 1, delays := [] }
    | .fail msg c =>
        if (ScrapeAttempt.fail msg c).isRetryable then
          let rest := scrapeOPGGRun outcome r (retryCount + 1)
          { succeeded := rest.succeeded, calls := rest.calls + 1,
            delays := 2000 * ((retryCount : ℚ) + 1) :: rest.delays }
        else { succeeded := false, calls := 1, delays := [] }

/-- scrapeOPGG entered with retryCount = 0: number of fetch calls. -/
def scrapeOPGGCalls (outcome : ℕ → ScrapeAttempt) : ℕ :=
  (scrapeOPGGRun outcome scrapeMaxRetries 0).calls

/-! ### Per-adapter statistics blocks -/

/-- The statistics block of services/opgg.js scrapeOPGG: overwritten from
the matches when matches.length > 0, else left at its initial zeros. -/
def opggStatistics (ms : List MatchRecord) : Statistics :=
  if 0 < ms.length then
    { winRate := some (((ms.filter (fun m => m.win)).length : ℚ) / (ms.length : ℚ))
      avgKDA := some ((ms.map matchKDA).sum / (ms.length : ℚ))
      avgCS := some ((ms.map (fun m => m.cs_per_minute)).sum / (ms.length : ℚ)) }
  else { winRate := some 0, avgKDA := some 0, avgCS := some 0 }

/-- The stats object of services/riotApi.js fetchFromRiotApi: computed
without guarding matches.length, so an empty match list divides 0 by 0 and
every field is NaN (`none`). -/
def riotStatistics (ms : List MatchRecord) : Statistics :=
  if ms.length = 0 then { winRate := none, avgKDA := none, avgCS := none }
  else
    { winRate := some (((ms.filter (fun m => m.win)).length : ℚ) / (ms.length : ℚ))
      avgKDA := some ((ms.map matchKDA).sum / (ms.length : ℚ))
      avgCS := some ((ms.map (fun m => m.cs_per_minute)).sum / (ms.length : ℚ)) }

/-- A match object pushed by services/mobalytics.js: besides the common
fields it carries cs = Math.round(csPerMin * 15). -/
structure MobaMatch where
  champion_name : String
  win : Bool
  kills : ℕ
  deaths : ℕ
  assists : ℕ
  cs_per_minute : ℚ
  cs : ℤ
deriving DecidableEq, Repr

/-- The match constructor of scrapeMobalytics. -/
def mkMobaMatch (champion : String) (win : Bool) (kills deaths assists : ℕ)
    (csPerMin : ℚ) : MobaMatch :=
  { champion_name := champion, win := win, kills := kills, deaths := deaths,
    assists := assists, cs_per_minute := csPerMin, cs := jsRound (csPerMin * 15) }

/-- The statistics block of services/mobalytics.js scrapeMobalytics:
avgKDA = (totalKills + totalAssists) / Math.max(totalDeaths, 1) — the
aggregate ratio — and avgCS = totalCS / matches.length over the estimated
per-match cs totals; zeros when no matches were extracted. -/
def mobalyticsStatistics (ms : List MobaMatch) : Statistics :=
  if 0 < ms.length then
    let totalKills : ℚ := ((ms.map (fun m => m.kills)).sum : ℕ)
    let totalDeaths : ℚ := ((ms.map (fun m => m.deaths)).sum : ℕ)
    let totalAssists : ℚ := ((ms.map (fun m => m.assists)).sum : ℕ)
    let totalCS : ℚ := ((ms.map (fun m => m.cs)).sum : ℤ)
    { winRate := some (((ms.filter (fun m => m.win)).length : ℚ) / (ms.length : ℚ))
      avgKDA := some ((totalKills + totalAssists) / max totalDeaths 1)
      avgCS := some (totalCS / (ms.length : ℚ)) }
  else { winRate := some 0, avgKDA := some 0, avgCS := some 0 }

/-! ### Ranked-entry construction in the scraping adapters -/

/-- The ranked entry pushed by services/opgg.js: its queue identifier is
stored under the key `queue`, the object has no `queueType` key. -/
def mkOpggRankedEntry (tier rank : String) (lp : ℚ) (wins losses : ℕ) : RankedEntry :=
  { queueType := none, queue := some "RANKED_SOLO_5x5", tier := tier, rank := rank,
    leaguePoints := lp, wins := wins, losses := losses }

/-- The ranked entry of services/mobalytics.js after the season-stats
merge: pushed as {queue, tier, rank, leaguePoints} — again no `queueType`
key — with wins/losses assigned afterwards when season stats are found. -/
def mkMobalyticsRankedEntry (tier rank : String) (lp : ℚ) (wins losses : ℕ) :
    RankedEntry :=
  { queueType := none, queue := some "RANKED_SOLO_5x5", tier := tier, rank := rank,
    leaguePoints := lp, wins := wins, losses := losses }

/-! ### Helper lemmas about the attempt loop and the attempt list -/

theorem attemptLoop_cons_ok {fetch : Source → Option RawData} {a : Source}
    {d : RawData} (rest : List Source) (hf : fetch a = some d) :
    attemptLoop fetch (a :: rest) = ⟨some (a, d), [], [a]⟩ := by
  simp [attemptLoop, hf]

theorem attemptLoop_cons_fail {fetch : Source → Option RawData} {a : Source}
    (rest : List Source) (hf : fetch a = none) :
    attemptLoop fetch (a :: rest) =
      ⟨(attemptLoop fetch rest).result, a :: (attemptLoop fetch rest).failedSources,
        a :: (attemptLoop fetch rest).invoked⟩ := by
  simp [attemptLoop, hf]

theorem attemptLoop_all_fail (fetch : Source → Option RawData) :
    ∀ L : List Source, (∀ s ∈ L, fetch s = none) →
      attemptLoop fetch L = ⟨none, L, L⟩ := by
  intro L
  induction L with
  | nil => intro _; rfl
  | cons a rest ih =>
    intro h
    have ha : fetch a = none := h a (List.mem_cons_self a rest)
    have hr := ih (fun s hs => h s (List.mem_cons_of_mem a hs))
    rw [attemptLoop_cons_fail rest ha, hr]

theorem attemptLoop_some_spec (fetch : Source → Option RawData) :
    ∀ (L : List Source) (s : Source) (d : RawData),
      (attemptLoop fetch L).result = some (s, d) →
      (attemptLoop fetch L).failedSources =
          L.take (attemptLoop fetch L).failedSources.length ∧
        L[(attemptLoop fetch L).failedSources.length]? = some s ∧
        (attemptLoop fetch L).invoked =
          L.take ((attemptLoop fetch L).failedSources.length + 1) ∧
        (∀ t ∈ (attemptLoop fetch L).failedSources, fetch t = none) ∧
        fetch s = some d := by
  intro L
  induction L with
  | nil => intro s d h; simp [attemptLoop] at h
  | cons a rest ih =>
    intro s d h
    cases hf : fetch a with
    | some d0 =>
      rw [attemptLoop_cons_ok rest hf] at h ⊢
      simp at h ⊢
      obtain ⟨hs, hd⟩ := h
      subst hs; subst hd
      exact ⟨rfl, hf⟩
    | none =>
      rw [attemptLoop_cons_fail rest hf] at h ⊢
      simp only at h
      obtain ⟨h1, h2, h3, h4, h5⟩ := ih s d h
      simp only [List.length_cons, List.take_succ_cons, List.getElem?_cons_succ,
        List.mem_cons]
      refine ⟨by rw [← h1], h2, by rw [← h3], ?_, h5⟩
      rintro t (rfl | ht)
      · exact hf
      · exact h4 t ht


theorem attemptLoop_result_mem (fetch : Source → Option RawData) :
    ∀ (L : List Source) (s : Source) (d : RawData),
      (attemptLoop fetch L).result = some (s, d) → s ∈ L := by
  intro L
  induction L with
  | nil => intro s d h; simp [attemptLoop] at h
  | cons a rest ih =>
    intro s d h
    cases hf : fetch a with
    | some d0 =>
      rw [attemptLoop_cons_ok rest hf] at h
      simp at h
      simp [h.1]
    | none =>
      rw [attemptLoop_cons_fail rest hf] at h
      exact List.mem_cons_of_mem a (ih s d h)

theorem attemptLoop_failed_sublist (fetch : Source → Option RawData) :
    ∀ L : List Source, (attemptLoop fetch L).failedSources.Sublist L := by
  intro L
  induction L with
  | nil => simp [attemptLoop]
  | cons a rest ih =>
    cases hf : fetch a with
    | some d0 => rw [attemptLoop_cons_ok rest hf]; exact List.nil_sublist _
    | none => rw [attemptLoop_cons_fail rest hf]; exact ih.cons₂ a

theorem attemptLoop_not_mem_failed (fetch : Source → Option RawData) :
    ∀ (L : List Source) (s : Source) (d : RawData), L.Nodup →
      (attemptLoop fetch L).result = some (s, d) →
      s ∉ (attemptLoop fetch L).failedSources := by
  intro L
  induction L with
  | nil => intro s d _ h; simp [attemptLoop] at h
  | cons a rest ih =>
    intro s d hnd h
    cases hf : fetch a with
    | some d0 => rw [attemptLoop_cons_ok rest hf]; simp
    | none =>
      rw [attemptLoop_cons_fail rest hf] at h ⊢
      have hmem : s ∈ rest := attemptLoop_result_mem fetch rest s d h
      have hna : a ∉ rest := (List.nodup_cons.mp hnd).1
      have hrest : rest.Nodup := (List.nodup_cons.mp hnd).2
      simp only [List.mem_cons, not_or]
      exact ⟨fun hsa => hna (hsa ▸ hmem), ih s d hrest h⟩

theorem source_name_injective : Function.Injective Source.name := by
  intro a b h
  cases a <;> cases b <;> first | rfl | (simp [Source.name] at h)

theorem source_name_ne_data_dragon (s : Source) : s.name ≠ "data_dragon" := by
  cases s <;> simp [Source.name]

theorem buildSourcesToTry_nodup (u : Bool) (ds : Option String) :
    (buildSourcesToTry u ds).Nodup := by
  unfold buildSourcesToTry
  simp only []
  split_ifs <;> decide

/-! ### Helper lemmas about the retry executors -/

theorem riotRun_ok {outcome : ℕ → RiotAttempt} {k : ℕ} (r : ℕ)
    (h : outcome k = .ok) :
    makeRiotAPICallRun outcome r k = ⟨true, 1, []⟩ := by
  conv_lhs => rw [makeRiotAPICallRun.eq_def]
  dsimp only
  rw [h]

theorem riotRun_stop {outcome : ℕ → RiotAttempt} {k : ℕ} {st : Option ℕ}
    {ra : Option ℚ} (r : ℕ) (h : outcome k = .fail st ra)
    (hnr : (RiotAttempt.fail st ra).isRetryable = false) :
    makeRiotAPICallRun outcome r k = ⟨false, 1, []⟩ := by
  conv_lhs => rw [makeRiotAPICallRun.eq_def]
  dsimp only
  rw [h]
  cases r <;> simp [hnr]

theorem riotRun_exhausted {outcome : ℕ → RiotAttempt} {k : ℕ} {st : Option ℕ}
    {ra : Option ℚ} (h : outcome k = .fail st ra)
    (hr : (RiotAttempt.fail st ra).isRetryable = true) :
    makeRiotAPICallRun outcome 0 k = ⟨false, 1, []⟩ := by
  conv_lhs => rw [makeRiotAPICallRun.eq_def]
  dsimp only
  rw [h]
  simp [hr]

theorem riotRun_step {outcome : ℕ → RiotAttempt} {k : ℕ} {st : Option ℕ}
    {ra : Option ℚ} (r : ℕ) (h : outcome k = .fail st ra)
    (hr : (RiotAttempt.fail st ra).isRetryable = true) :
    makeRiotAPICallRun outcome (r + 1) k =
      ⟨(makeRiotAPICallRun outcome r (k + 1)).succeeded,
        (makeRiotAPICallRun outcome r (k + 1)).calls + 1,
        riotRetryDelay (.fail st ra) k :: (makeRiotAPICallRun outcome r (k + 1)).delays⟩ := by
  conv_lhs => rw [makeRiotAPICallRun.eq_def]
  dsimp only
  rw [h]
  simp [hr]

theorem makeRiotAPICallRun_calls_le (outcome : ℕ → RiotAttempt) :
    ∀ (r k : ℕ), (makeRiotAPICallRun outcome r k).calls ≤ r + 1 := by
  intro r
  induction r with
  | zero =>
    intro k
    cases ho : outcome k with
    | ok => rw [riotRun_ok 0 ho]
    | fail st ra =>
      cases hr : (RiotAttempt.fail st ra).isRetryable with
      | false => rw [riotRun_stop 0 ho hr]
      | true => rw [riotRun_exhausted ho hr]
  | succ r ih =>
    intro k
    cases ho : outcome k with
    | ok => rw [riotRun_ok (r + 1) ho]; dsimp only; omega
    | fail st ra =>
      cases hr : (RiotAttempt.fail st ra).isRetryable with
      | false => rw [riotRun_stop (r + 1) ho hr]; dsimp only; omega
      | true =>
        rw [riotRun_step r ho hr]
        have := ih (k + 1)
        simp only
        omega

theorem makeRiotAPICallRun_calls_eq (outcome : ℕ → RiotAttempt) :
    ∀ (r k n : ℕ), (∀ i, i < n → (outcome (k + i)).isRetryable = true) →
      (n ≤ r → (outcome (k + n)).isRetryable = false) →
      (makeRiotAPICallRun outcome r k).calls = min (r + 1) (n + 1) := by
  intro r
  induction r with
  | zero =>
    intro k n _ _
    have h1 : (makeRiotAPICallRun outcome 0 k).calls = 1 := by
      cases ho : outcome k with
      | ok => rw [riotRun_ok 0 ho]
      | fail st ra =>
        cases hr : (RiotAttempt.fail st ra).isRetryable with
        | false => rw [riotRun_stop 0 ho hr]
        | true => rw [riotRun_exhausted ho hr]
    omega
  | succ r ih =>
    intro k n hall hstop
    cases hn : n with
    | zero =>
      subst hn
      have hret : (outcome k).isRetryable = false := by
        have := hstop (by omega)
        simpa using this
      cases ho : outcome k with
      | ok => rw [riotRun_ok (r + 1) ho]; dsimp only; omega
      | fail st ra =>
        rw [ho] at hret
        rw [riotRun_stop (r + 1) ho hret]
        dsimp only
        omega
    | succ m =>
      subst hn
      have hret0 : (outcome k).isRetryable = true := by
        have := hall 0 (by omega)
        simpa using this
      cases ho : outcome k with
      | ok =>
        rw [ho] at hret0
        simp [RiotAttempt.isRetryable, RiotAttempt.isRateLimited,
          RiotAttempt.isServerError, RiotAttempt.isNetworkError] at hret0
      | fail st ra =>
        rw [ho] at hret0
        rw [riotRun_step r ho hret0]
        have hih := ih (k + 1) m
          (fun i hi => by
            have := hall (i + 1) (by omega)
            simpa [Nat.add_comm, Nat.add_assoc, Nat.add_left_comm] using this)
          (fun hm => by
            have := hstop (by omega)
            simpa [Nat.add_comm, Nat.add_assoc, Nat.add_left_comm] using this)
        simp only
        rw [hih]
        omega

theorem makeRiotAPICallRun_delays_spec (outcome : ℕ → RiotAttempt) :
    ∀ (r k j : ℕ) (d : ℚ), (makeRiotAPICallRun outcome r k).delays[j]? = some d →
      (outcome (k + j)).isRetryable = true ∧
        d = riotRetryDelay (outcome (k + j)) (k + j) := by
  intro r
  induction r with
  | zero =>
    intro k j d h
    have h1 : (makeRiotAPICallRun outcome 0 k).delays = [] := by
      cases ho : outcome k with
      | ok => rw [riotRun_ok 0 ho]
      | fail st ra =>
        cases hr : (RiotAttempt.fail st ra).isRetryable with
        | false => rw [riotRun_stop 0 ho hr]
        | true => rw [riotRun_exhausted ho hr]
    rw [h1] at h
    simp at h
  | succ r ih =>
    intro k j d h
    cases ho : outcome k with
    | ok => rw [riotRun_ok (r + 1) ho] at h; simp at h
    | fail st ra =>
      cases hr : (RiotAttempt.fail st ra).isRetryable with
      | false => rw [riotRun_stop (r + 1) ho hr] at h; simp at h
      | true =>
        rw [riotRun_step r ho hr] at h
        simp only at h
        cases j with
        | zero =>
          simp at h
          subst h
          constructor
          · simpa [ho] using hr
          · simp [ho]
        | succ j =>
          simp only [List.getElem?_cons_succ] at h
          have := ih (k + 1) j d h
          constructor
          · have h2 := this.1
            simpa [Nat.add_comm, Nat.add_assoc, Nat.add_left_comm] using h2
          · have h2 := this.2
            have he : k + 1 + j = k + (j + 1) := by omega
            rw [he] at h2
            exact h2

theorem scrapeRun_zero_calls (outcome : ℕ → ScrapeAttempt) (k : ℕ) :
    (scrapeOPGGRun outcome 0 k).calls = 1 := by
  rw [scrapeOPGGRun]
  cases outcome k <;> rfl

theorem scrapeRun_ok {outcome : ℕ → ScrapeAttempt} {k : ℕ} (r : ℕ)
    (h : outcome k = .ok) : scrapeOPGGRun outcome r k = ⟨true, 1, []⟩ := by
  cases r with
  | zero => rw [scrapeOPGGRun, h]
  | succ r => rw [scrapeOPGGRun, h]

theorem scrapeRun_stop {outcome : ℕ → ScrapeAttempt} {k : ℕ} {msg : String}
    {c : Option String} (r : ℕ) (h : outcome k = .fail msg c)
    (hnr : (ScrapeAttempt.fail msg c).isRetryable = false) :
    scrapeOPGGRun outcome r k = ⟨false, 1, []⟩ := by
  cases r with
  | zero => rw [scrapeOPGGRun, h]
  | succ r => rw [scrapeOPGGRun, h]; simp [hnr]

theorem scrapeRun_step {outcome : ℕ → ScrapeAttempt} {k : ℕ} {msg : String}
    {c : Option String} (r : ℕ) (h : outcome k = .fail msg c)
    (hr : (ScrapeAttempt.fail msg c).isRetryable = true) :
    scrapeOPGGRun outcome (r + 1) k =
      ⟨(scrapeOPGGRun outcome r (k + 1)).succeeded,
        (scrapeOPGGRun outcome r (k + 1)).calls + 1,
        2000 * ((k : ℚ) + 1) :: (scrapeOPGGRun outcome r (k + 1)).delays⟩ := by
  rw [scrapeOPGGRun, h]
  simp [hr]

theorem scrapeOPGGRun_calls_le (outcome : ℕ → ScrapeAttempt) :
    ∀ (r k : ℕ), (scrapeOPGGRun outcome r k).calls ≤ r + 1 := by
  intro r
  induction r with
  | zero => intro k; rw [scrapeRun_zero_calls]
  | succ r ih =>
    intro k
    cases ho : outcome k with
    | ok => rw [scrapeRun_ok (r + 1) ho]; dsimp only; omega
    | fail msg c =>
      cases hr : (ScrapeAttempt.fail msg c).isRetryable with
      | false => rw [scrapeRun_stop (r + 1) ho hr]; dsimp only; omega
      | true =>
        rw [scrapeRun_step r ho hr]
        have := ih (k + 1)
        simp only
        omega

theorem scrapeOPGGRun_calls_eq (outcome : ℕ → ScrapeAttempt) :
    ∀ (r k n : ℕ), (∀ i, i < n → (outcome (k + i)).isRetryable = true) →
      (n ≤ r → (outcome (k + n)).isRetryable = false) →
      (scrapeOPGGRun outcome r k).calls = min (r + 1) (n + 1) := by
  intro r
  induction r with
  | zero =>
    intro k n _ _
    have h1 := scrapeRun_zero_calls outcome k
    omega
  | succ r ih =>
    intro k n hall hstop
    cases hn : n with
    | zero =>
      subst hn
      have hret : (outcome k).isRetryable = false := by
        have := hstop (by omega)
        simpa using this
      cases ho : outcome k with
      | ok => rw [scrapeRun_ok (r + 1) ho]; dsimp only; omega
      | fail msg c =>
        rw [ho] at hret
        rw [scrapeRun_stop (r + 1) ho hret]
        dsimp only
        omega
    | succ m =>
      subst hn
      have hret0 : (outcome k).isRetryable = true := by
        have := hall 0 (by omega)
        simpa using this
      cases ho : outcome k with
      | ok =>
        rw [ho] at hret0
        simp [ScrapeAttempt.isRetryable, ScrapeAttempt.isConnReset,
          ScrapeAttempt.isTimedOut] at hret0
      | fail msg c =>
        rw [ho] at hret0
        rw [scrapeRun_step r ho hret0]
        have hih := ih (k + 1) m
          (fun i hi => by
            have := hall (i + 1) (by omega)
            simpa [Nat.add_comm, Nat.add_assoc, Nat.add_left_comm] using this)
          (fun hm => by
            have := hstop (by omega)
            simpa [Nat.add_comm, Nat.add_assoc, Nat.add_left_comm] using this)
        simp only
        rw [hih]
        omega

/-! ### The claims -/

/-- The ranked entry of Scenario A: queueType RANKED_SOLO_5x5, wins = 10,
losses = 10, tier GOLD. -/
def scenarioARankedEntry : RankedEntry :=
  { queueType := some "RANKED_SOLO_5x5", queue := none, tier := "GOLD", rank := "II",
    leaguePoints := 50, wins := 10, losses := 10 }

/-- C9: for a single ranked solo-queue entry with queueType
"RANKED_SOLO_5x5", wins = 10, losses = 10, tier GOLD and an empty match
list, calculateOPScore returns exactly 70
(50 + 0.5·30 + 5 GOLD bonus + 0 KDA + 0 CS). -/
theorem c9_scenarioA_opScore_70 :
    calculateOPScore [] [scenarioARankedEntry] = some 70 := by
  simp [calculateOPScore, scenarioARankedEntry, rankBonus, jsRound, List.find?]
  norm_num

/-- A solo-queue ranked entry with wins = 0 and losses = 0. -/
def zeroGamesSoloEntry : RankedEntry :=
  { queueType := some "RANKED_SOLO_5x5", queue := none, tier := "GOLD", rank := "IV",
    leaguePoints := 0, wins := 0, losses := 0 }

/-- C4 (code bug): a solo-queue ranked entry with wins + losses = 0 makes
calculateOPScore divide 0 by 0, and the resulting NaN survives
Math.round/Math.max/Math.min, so the returned opScore is NaN — not an
integer in [0,100]; likewise fetchFromRiotApi computes winRate = 0/0 = NaN
for an empty match list, so statistics.winRate is not a number in [0,1]. -/
theorem c4_opScore_NaN_on_zero_games :
    calculateOPScore [] [zeroGamesSoloEntry] = none ∧
      (∀ z : ℤ, calculateOPScore [] [zeroGamesSoloEntry] ≠ some z) ∧
      riotStatistics [] = { winRate := none, avgKDA := none, avgCS := none } := by
  refine ⟨?_, ?_, ?_⟩
  · simp [calculateOPScore, zeroGamesSoloEntry, List.find?]
  · intro z
    simp [calculateOPScore, zeroGamesSoloEntry, List.find?]
  · simp [riotStatistics]

/-- C10: calculateOPScore awards ranked points only to an entry whose
queueType field is exactly "RANKED_SOLO_5x5"; the OP.GG and Mobalytics
scrapers build ranked entries carrying the key queue instead of queueType,
so for profiles from those sources the ranked component contributes
exactly 0 — the score equals the one computed with no ranked data at
all, whatever the tier, wins and losses. -/
theorem c10_scraper_ranked_entries_score_no_ranked_points :
    (∀ (tier rank : String) (lp : ℚ) (w l : ℕ),
        (mkOpggRankedEntry tier rank lp w l).queueType = none) ∧
    (∀ (tier rank : String) (lp : ℚ) (w l : ℕ),
        (mkMobalyticsRankedEntry tier rank lp w l).queueType = none) ∧
    (∀ (matchData : List MatchRecord) (rankedData : List RankedEntry),
        (∀ e ∈ rankedData, e.queueType = none) →
        calculateOPScore matchData rankedData = calculateOPScore matchData []) := by
  refine ⟨fun _ _ _ _ _ => rfl, fun _ _ _ _ _ => rfl, ?_⟩
  intro matchData rankedData hq
  have hfind : rankedData.find? (fun q => q.queueType = some "RANKED_SOLO_5x5") = none := by
    rw [List.find?_eq_none]
    intro x hx
    simp [hq x hx]
  simp [calculateOPScore, hfind, List.find?]

/-- C10 witness: a GOLD entry with 100 wins and 0 losses built by the
OP.GG scraper does not change the score of a profile with no matches. -/
theorem c10_witness :
    calculateOPScore [] [mkOpggRankedEntry "GOLD" "I" 99 100 0] =
      calculateOPScore [] [] :=
  c10_scraper_ranked_entries_score_no_ranked_points.2.2 []
    [mkOpggRankedEntry "GOLD" "I" 99 100 0]
    (by intro e he; simp at he; subst he; rfl)


/-- Two Mobalytics matches: 10/1/0 (KDA 10) and 0/10/0 (KDA 0), both at
3 cs per minute. -/
def c7MobaMatches : List MobaMatch :=
  [mkMobaMatch "Ahri" true 10 1 0 3, mkMobaMatch "Zed" false 0 10 0 3]

/-- C7 counterexample: the Mobalytics adapter does not emit the per-match
mean KDA (here 5) but the aggregate ratio 10/11, and its avgCS is the mean
of the estimated per-match cs totals (45), not the mean cs-per-minute (3). -/
theorem c7_counterexample :
    (mobalyticsStatistics c7MobaMatches).avgKDA ≠
      some ((c7MobaMatches.map
        (fun m => ((m.kills : ℚ) + m.assists) / max (m.deaths : ℚ) 1)).sum /
        (c7MobaMatches.length : ℚ)) ∧
    (mobalyticsStatistics c7MobaMatches).avgCS ≠
      some ((c7MobaMatches.map (fun m => m.cs_per_minute)).sum /
        (c7MobaMatches.length : ℚ)) := by
  constructor
  · norm_num [mobalyticsStatistics, c7MobaMatches, mkMobaMatch]
  · norm_num [mobalyticsStatistics, c7MobaMatches, mkMobaMatch, jsRound]

/-- C7 amended: for a non-empty match list, the OP.GG scraper (and the
fetchFromRiotApi stats block) emit winRate = wins/totalMatches, avgKDA =
the per-match mean of (kills+assists)/max(deaths,1) and avgCS = the mean of
the cs-per-minute values of the matches; the Mobalytics scraper instead emits
avgKDA = (ΣK + ΣA)/max(ΣD, 1) — the aggregate ratio — and avgCS = the mean
of the per-match cs totals (round(csPerMin·15)), not of cs-per-minute. -/
theorem c7_amended_per_source_statistics (ms : List MatchRecord) (mm : List MobaMatch)
    (h1 : ms ≠ []) (h2 : mm ≠ []) :
    (opggStatistics ms).winRate =
        some (((ms.filter (fun m => m.win)).length : ℚ) / (ms.length : ℚ)) ∧
    (opggStatistics ms).avgKDA = some ((ms.map matchKDA).sum / (ms.length : ℚ)) ∧
    (opggStatistics ms).avgCS =
        some ((ms.map (fun m => m.cs_per_minute)).sum / (ms.length : ℚ)) ∧
    riotStatistics ms = opggStatistics ms ∧
    (mobalyticsStatistics mm).avgKDA =
        some (((((mm.map (fun m => m.kills)).sum : ℕ) : ℚ) +
            (((mm.map (fun m => m.assists)).sum : ℕ) : ℚ)) /
          max (((mm.map (fun m => m.deaths)).sum : ℕ) : ℚ) 1) ∧
    (mobalyticsStatistics mm).avgCS =
        some (((((mm.map (fun m => m.cs)).sum : ℤ) : ℚ)) / (mm.length : ℚ)) := by
  have hl1 : 0 < ms.length := List.length_pos.mpr h1
  have hl2 : 0 < mm.length := List.length_pos.mpr h2
  refine ⟨?_, ?_, ?_, ?_, ?_, ?_⟩
  · simp [opggStatistics, hl1]
  · simp [opggStatistics, hl1]
  · simp [opggStatistics, hl1]
  · simp [riotStatistics, opggStatistics, hl1, Nat.pos_iff_ne_zero.mp hl1]
  · simp [mobalyticsStatistics, hl2]
  · simp [mobalyticsStatistics, hl2]

/-- C7 amended witness at one concrete match. -/
theorem c7_amended_witness :
    ([(⟨"Ahri", true, 3, 1, 2, 6⟩ : MatchRecord)] ≠ ([] : List MatchRecord)) ∧
      (opggStatistics [⟨"Ahri", true, 3, 1, 2, 6⟩]).avgKDA =
        some (([(⟨"Ahri", true, 3, 1, 2, 6⟩ : MatchRecord)].map matchKDA).sum / 1) :=
  ⟨by simp,
    (c7_amended_per_source_statistics [⟨"Ahri", true, 3, 1, 2, 6⟩] [mkMobaMatch "A" true 1 1 1 5]
      (by simp) (by simp)).2.1⟩


/-- C1: for every request, the sources of the built attempt list are tried
strictly in list order and iteration stops at the first success: the
invoked sources are exactly the list prefix ending at the successful
source (every earlier source failed), so no source occurring after the
successful one is ever invoked. -/
theorem c1_attempt_loop_stops_at_first_success (useRiotApi : Bool)
    (dataSource : Option String) (fetch : Source → Option RawData)
    (s : Source) (d : RawData)
    (h : (attemptLoop fetch (buildSourcesToTry useRiotApi dataSource)).result =
      some (s, d)) :
    let L := buildSourcesToTry useRiotApi dataSource
    let r := attemptLoop fetch L
    r.failedSources = L.take r.failedSources.length ∧
      L[r.failedSources.length]? = some s ∧
      r.invoked = L.take (r.failedSources.length + 1) ∧
      (∀ t ∈ r.failedSources, fetch t = none) ∧
      fetch s = some d :=
  attemptLoop_some_spec fetch (buildSourcesToTry useRiotApi dataSource) s d h

/-- A fixed summoner block used by sampleRawData. -/
def sampleRawSummoner : RawSummoner :=
  { name := "Faker", tagLine := "KR1", level := some 100,
    profileIconId := some 1, region := "kr" }

/-- A fixed adapter result used to instantiate the orchestrator theorems. -/
def sampleRawData : RawData :=
  { summoner := sampleRawSummoner
    ranked := []
    «matches» := []
    statistics := { winRate := some 0, avgKDA := some 0, avgCS := some 0 } }

/-- An adapter oracle where only OP.GG succeeds. -/
def onlyOpggFetch : Source → Option RawData :=
  fun s => if s = Source.opgg then some sampleRawData else none

/-- C1 witness: with sources [opgg, mobalytics, league_of_graphs] and an
oracle where OP.GG succeeds at position 0, only OP.GG is invoked. -/
theorem c1_witness :
    let L := buildSourcesToTry false none
    let r := attemptLoop onlyOpggFetch L
    r.failedSources = L.take r.failedSources.length ∧
      L[r.failedSources.length]? = some Source.opgg ∧
      r.invoked = L.take (r.failedSources.length + 1) ∧
      (∀ t ∈ r.failedSources, onlyOpggFetch t = none) ∧
      onlyOpggFetch Source.opgg = some sampleRawData :=
  c1_attempt_loop_stops_at_first_success false none onlyOpggFetch
    Source.opgg sampleRawData rfl


/-- Characterization of the handler on a successful loop. -/
theorem handleSummoner_success (name tag region : String) (u : Bool)
    (ds : Option String) (fetch : Source → Option RawData) (dragonOk : Bool)
    {s : Source} {d : RawData}
    (hr : (attemptLoop fetch (buildSourcesToTry u ds)).result = some (s, d)) :
    handleSummoner name tag region u ds fetch dragonOk = .profile
      { summonerName := d.summoner.name
        summonerTagLine := d.summoner.tagLine
        summonerLevel := d.summoner.level.getD 0
        summonerProfileIconId := d.summoner.profileIconId.getD 0
        summonerRegion := d.summoner.region
        ranked := d.ranked
        «matches» := d.«matches»
        insights := scrapedInsights s d
        opScore := calculateOPScore d.«matches» d.ranked
        statistics := d.statistics
        dataSource := s.name
        failedSources :=
          (attemptLoop fetch (buildSourcesToTry u ds)).failedSources.map Source.name } := by
  unfold handleSummoner
  simp only [] 
  rw [hr]

/-- Characterization of the handler when every source failed and the Data
Dragon call succeeds. -/
theorem handleSummoner_static (name tag region : String) (u : Bool)
    (ds : Option String) (fetch : Source → Option RawData)
    (hr : (attemptLoop fetch (buildSourcesToTry u ds)).result = none) :
    handleSummoner name tag region u ds fetch true = .staticFallback
      { error := "Limited static data only"
        summonerName := name
        summonerTagLine := tag
        summonerLevel := 0
        summonerRegion := region
        ranked := []
        «matches» := []
        insights := [staticDataInsight]
        opScore := some 0
        statistics := { winRate := some 0, avgKDA := some 0, avgCS := some 0 }
        dataSource := "data_dragon"
        failedSources :=
          (attemptLoop fetch (buildSourcesToTry u ds)).failedSources.map Source.name } := by
  unfold handleSummoner
  simp only []
  rw [hr]
  rfl

/-- Characterization of the handler when every source failed and the Data
Dragon call fails as well. -/
theorem handleSummoner_failure (name tag region : String) (u : Bool)
    (ds : Option String) (fetch : Source → Option RawData)
    (hr : (attemptLoop fetch (buildSourcesToTry u ds)).result = none) :
    handleSummoner name tag region u ds fetch false = .totalFailure
      { error := "All data sources unavailable"
        details := "Unable to retrieve data from any source. Please try again later."
        failedSources :=
          (attemptLoop fetch (buildSourcesToTry u ds)).failedSources.map Source.name
        summonerName := name
        summonerTagLine := tag } := by
  unfold handleSummoner
  simp only []
  rw [hr]
  rfl


/-- C2: the attempt list never lists a source twice, and for every request
answered as a profile (normal success) or as the static-data fallback (the
two non-TotalFailure outcomes) the failedSources array of the response
does not contain the dataSource of the response and lists each source at most
once. -/
theorem c2_failedSources_exclude_dataSource (name tag region : String)
    (u : Bool) (ds : Option String) (fetch : Source → Option RawData)
    (dragonOk : Bool) :
    (buildSourcesToTry u ds).Nodup ∧
    (∀ p, handleSummoner name tag region u ds fetch dragonOk = .profile p →
      p.dataSource ∉ p.failedSources ∧ p.failedSources.Nodup) ∧
    (∀ p, handleSummoner name tag region u ds fetch dragonOk = .staticFallback p →
      p.dataSource ∉ p.failedSources ∧ p.failedSources.Nodup) := by
  have hnd := buildSourcesToTry_nodup u ds
  have hsub := attemptLoop_failed_sublist fetch (buildSourcesToTry u ds)
  have hfs_nodup : ((attemptLoop fetch
      (buildSourcesToTry u ds)).failedSources.map Source.name).Nodup :=
    (hnd.sublist hsub).map source_name_injective
  refine ⟨hnd, ?_, ?_⟩
  · intro p hp
    cases hr : (attemptLoop fetch (buildSourcesToTry u ds)).result with
    | none =>
      exfalso
      cases dragonOk with
      | true =>
        rw [handleSummoner_static name tag region u ds fetch hr] at hp
        exact SummonerResult.noConfusion hp
      | false =>
        rw [handleSummoner_failure name tag region u ds fetch hr] at hp
        exact SummonerResult.noConfusion hp
    | some sd =>
      obtain ⟨s, d⟩ := sd
      rw [handleSummoner_success name tag region u ds fetch dragonOk hr] at hp
      have hpe := (SummonerResult.profile.injEq _ _).mp hp.symm
      subst hpe
      have hnotmem := attemptLoop_not_mem_failed fetch (buildSourcesToTry u ds) s d hnd hr
      refine ⟨?_, hfs_nodup⟩
      simp only [List.mem_map, not_exists, not_and]
      intro t ht hname
      exact hnotmem ((source_name_injective hname) ▸ ht)
  · intro p hp
    cases hr : (attemptLoop fetch (buildSourcesToTry u ds)).result with
    | some sd =>
      exfalso
      obtain ⟨s, d⟩ := sd
      rw [handleSummoner_success name tag region u ds fetch dragonOk hr] at hp
      exact SummonerResult.noConfusion hp
    | none =>
      cases dragonOk with
      | false =>
        exfalso
        rw [handleSummoner_failure name tag region u ds fetch hr] at hp
        exact SummonerResult.noConfusion hp
      | true =>
        rw [handleSummoner_static name tag region u ds fetch hr] at hp
        have hpe := (SummonerResult.staticFallback.injEq _ _).mp hp.symm
        subst hpe
        refine ⟨?_, hfs_nodup⟩
        simp only [List.mem_map, not_exists, not_and]
        intro t _ hname
        exact source_name_ne_data_dragon t hname

/-- C2 witness: with riot_api and OP.GG listed, riot_api failing and OP.GG
succeeding, the profile response has dataSource opgg and
failedSources [riot_api]. -/
theorem c2_witness :
    ∀ p, handleSummoner "Faker" "KR1" "kr" true none onlyOpggFetch true = .profile p →
      p.dataSource ∉ p.failedSources ∧ p.failedSources.Nodup :=
  (c2_failedSources_exclude_dataSource "Faker" "KR1" "kr" true none
    onlyOpggFetch true).2.1


/-- C5: the attempt list places riot_api first iff useRiotApi is set and
the normalized preferred source permits it ("all" or "riot_api"); under
"all" the scraping sources follow in the fixed order OP.GG, Mobalytics,
League of Graphs; a request naming one specific scraping source yields an
attempt list holding exactly that source. -/
theorem c5_attempt_list_construction (u : Bool) (ds : Option String) :
    ((buildSourcesToTry u ds).head? = some Source.riot_api ↔
      u = true ∧ (normalizeSource ds = "all" ∨ normalizeSource ds = "riot_api")) ∧
    (normalizeSource ds = "all" →
      buildSourcesToTry u ds = (if u then [Source.riot_api] else []) ++
        [Source.opgg, Source.mobalytics, Source.league_of_graphs]) ∧
    (normalizeSource ds = "opgg" → buildSourcesToTry u ds = [Source.opgg]) ∧
    (normalizeSource ds = "mobalytics" →
      buildSourcesToTry u ds = [Source.mobalytics]) ∧
    (normalizeSource ds = "league_of_graphs" →
      buildSourcesToTry u ds = [Source.league_of_graphs]) := by
  unfold buildSourcesToTry
  simp only []
  split_ifs with h1 h2 h3 h4 h5 <;>
    constructor <;>
    first
      | (constructor <;> intro hx <;> simp_all)
      | (refine ⟨?_, ?_, ?_, ?_⟩ <;> intro hx <;> simp_all)

/-- C5 witness: with useRiotApi and dataSource "all" the list is
[riot_api, opgg, mobalytics, league_of_graphs]; riot_api is indeed at the
head. -/
theorem c5_witness :
    (buildSourcesToTry true (some "all")).head? = some Source.riot_api :=
  ((c5_attempt_list_construction true (some "all")).1).mpr ⟨rfl, Or.inl (by decide)⟩


/-- C8: when every source in the attempt list fails and the static Data
Dragon fetch succeeds, the request is answered as a success whose body has
dataSource "data_dragon", an empty match list, exactly one insight — of
type "error", the static-data notice — and failedSources listing the
failed sources in attempt order; when Data Dragon fails too, the request is
answered with the distinct error envelope
{error, details, failedSources, summoner:{name, tagLine}}, never as an
empty successful profile. -/
theorem c8_static_fallback_or_error_envelope (name tag region : String)
    (u : Bool) (ds : Option String) (fetch : Source → Option RawData)
    (hall : ∀ s ∈ buildSourcesToTry u ds, fetch s = none) :
    handleSummoner name tag region u ds fetch true = .staticFallback
      { error := "Limited static data only"
        summonerName := name
        summonerTagLine := tag
        summonerLevel := 0
        summonerRegion := region
        ranked := []
        «matches» := []
        insights := [staticDataInsight]
        opScore := some 0
        statistics := { winRate := some 0, avgKDA := some 0, avgCS := some 0 }
        dataSource := "data_dragon"
        failedSources := (buildSourcesToTry u ds).map Source.name } ∧
    staticDataInsight.type = "error" ∧
    handleSummoner name tag region u ds fetch false = .totalFailure
      { error := "All data sources unavailable"
        details := "Unable to retrieve data from any source. Please try again later."
        failedSources := (buildSourcesToTry u ds).map Source.name
        summonerName := name
        summonerTagLine := tag } := by
  have hloop := attemptLoop_all_fail fetch (buildSourcesToTry u ds) hall
  have hres : (attemptLoop fetch (buildSourcesToTry u ds)).result = none := by
    rw [hloop]
  have hfs : (attemptLoop fetch (buildSourcesToTry u ds)).failedSources =
      buildSourcesToTry u ds := by rw [hloop]
  refine ⟨?_, rfl, ?_⟩
  · rw [handleSummoner_static name tag region u ds fetch hres, hfs]
  · rw [handleSummoner_failure name tag region u ds fetch hres, hfs]

/-- C8 witness: all three scrapers fail on a dataSource "all" request with
the authenticated source disabled: the static fallback response carries
failedSources [opgg, mobalytics, league_of_graphs] in attempt order, and
the total-failure envelope carries the same list. -/
theorem c8_witness :
    handleSummoner "Faker" "KR1" "kr" false none (fun _ => none) true = .staticFallback
      { error := "Limited static data only"
        summonerName := "Faker"
        summonerTagLine := "KR1"
        summonerLevel := 0
        summonerRegion := "kr"
        ranked := []
        «matches» := []
        insights := [staticDataInsight]
        opScore := some 0
        statistics := { winRate := some 0, avgKDA := some 0, avgCS := some 0 }
        dataSource := "data_dragon"
        failedSources := (buildSourcesToTry false none).map Source.name } :=
  (c8_static_fallback_or_error_envelope "Faker" "KR1" "kr" false none
    (fun _ => none) (fun _ _ => rfl)).1


/-- An attempt oracle whose every fetch fails with a network error (no
response), which makeRiotAPICall classifies retryable. -/
def allNetworkErrors : ℕ → RiotAttempt := fun _ => .fail none none

/-- C3 counterexample: with every attempt failing retryably,
makeRiotAPICall (maxRetries = 5) performs 6 underlying fetch calls — one
more than the configured bound of 5 the claim states, because the guard
retryCount < maxRetries admits retry number 5 after the initial call. -/
theorem c3_counterexample :
    (makeRiotAPICall allNetworkErrors).calls = 6 ∧
      ¬(makeRiotAPICall allNetworkErrors).calls ≤ riotMaxRetries := by
  have h : (makeRiotAPICall allNetworkErrors).calls = 6 := by
    have := makeRiotAPICallRun_calls_eq allNetworkErrors riotMaxRetries 0 6
      (fun i _ => rfl) (by intro h6; exact absurd h6 (by norm_num [riotMaxRetries]))
    simpa [makeRiotAPICall, riotMaxRetries] using this
  exact ⟨h, by rw [h]; norm_num [riotMaxRetries]⟩

/-- C3 amended: for failures the adapters classify retryable, the number
of underlying fetch calls is exactly min(maxRetries + 1,
attemptsUntilSuccessOrExhaustion): the configured constants bound the
retries, not the attempts, so makeRiotAPICall (maxRetries = 5) makes up to
6 calls and a scraper (maxRetries = 3) up to 4 — never more. -/
theorem c3_amended_retry_call_counts (outcomeR : ℕ → RiotAttempt)
    (outcomeS : ℕ → ScrapeAttempt) (n m : ℕ)
    (hR1 : ∀ i, i < n → (outcomeR i).isRetryable = true)
    (hR2 : n ≤ riotMaxRetries → (outcomeR n).isRetryable = false)
    (hS1 : ∀ i, i < m → (outcomeS i).isRetryable = true)
    (hS2 : m ≤ scrapeMaxRetries → (outcomeS m).isRetryable = false) :
    (makeRiotAPICall outcomeR).calls = min (riotMaxRetries + 1) (n + 1) ∧
    scrapeOPGGCalls outcomeS = min (scrapeMaxRetries + 1) (m + 1) ∧
    (∀ o : ℕ → RiotAttempt, (makeRiotAPICall o).calls ≤ riotMaxRetries + 1) ∧
    (∀ o : ℕ → ScrapeAttempt, scrapeOPGGCalls o ≤ scrapeMaxRetries + 1) ∧
    riotMaxRetries + 1 = 6 ∧ scrapeMaxRetries + 1 = 4 := by
  refine ⟨?_, ?_, ?_, ?_, rfl, rfl⟩
  · exact makeRiotAPICallRun_calls_eq outcomeR riotMaxRetries 0 n
      (fun i hi => by simpa using hR1 i hi) (fun hn => by simpa using hR2 hn)
  · exact scrapeOPGGRun_calls_eq outcomeS scrapeMaxRetries 0 m
      (fun i hi => by simpa using hS1 i hi) (fun hm => by simpa using hS2 hm)
  · intro o; exact makeRiotAPICallRun_calls_le o riotMaxRetries 0
  · intro o; exact scrapeOPGGRun_calls_le o scrapeMaxRetries 0

/-- C3 amended witness: a first-call success makes exactly one fetch call
on both adapters. -/
theorem c3_amended_witness :
    (makeRiotAPICall (fun _ => .ok)).calls = min (riotMaxRetries + 1) (0 + 1) ∧
      scrapeOPGGCalls (fun _ => .ok) = min (scrapeMaxRetries + 1) (0 + 1) :=
  ⟨(c3_amended_retry_call_counts (fun _ => .ok) (fun _ => .ok) 0 0
      (fun i hi => absurd hi (Nat.not_lt_zero i)) (fun _ => rfl)
      (fun i hi => absurd hi (Nat.not_lt_zero i)) (fun _ => rfl)).1,
    (c3_amended_retry_call_counts (fun _ => .ok) (fun _ => .ok) 0 0
      (fun i hi => absurd hi (Nat.not_lt_zero i)) (fun _ => rfl)
      (fun i hi => absurd hi (Nat.not_lt_zero i)) (fun _ => rfl)).2.1⟩


/-- An attempt oracle: two HTTP 429 failures without a retry-after header,
then success. -/
def twoRateLimitsThenOk : ℕ → RiotAttempt :=
  fun k => if k < 2 then .fail (some 429) none else .ok

/-- C6 counterexample: on two rate-limited failures without a retry-after
header, makeRiotAPICall sleeps 1000 ms before each retry — the delay before
the second retry (attempt index 1) is 1000, not the claimed
2^attempt * baseDelay = 2000.  (The code overwrites the exponential delay
with (retry-after || 1) * 1000 whenever the failure is rate-limited.) -/
theorem c6_counterexample :
    (makeRiotAPICall twoRateLimitsThenOk).delays = [1000, 1000] ∧
      (twoRateLimitsThenOk 1).isRateLimited = true ∧
      (twoRateLimitsThenOk 1).retryAfterHeader = none ∧
      (1000 : ℚ) ≠ riotBaseDelay * 2 ^ 1 := by
  refine ⟨?_, rfl, rfl, by norm_num [riotBaseDelay]⟩
  have h0 : twoRateLimitsThenOk 0 = .fail (some 429) none := rfl
  have h1 : twoRateLimitsThenOk 1 = .fail (some 429) none := rfl
  have h2 : twoRateLimitsThenOk 2 = .ok := rfl
  have hr : (RiotAttempt.fail (some 429) none).isRetryable = true := rfl
  show (makeRiotAPICallRun twoRateLimitsThenOk 5 0).delays = [1000, 1000]
  rw [riotRun_step 4 h0 hr, riotRun_step 3 h1 hr, riotRun_ok 3 h2]
  simp [riotRetryDelay, RiotAttempt.isRateLimited, RiotAttempt.retryAfterHeader]

/-- C6 amended: whenever a retry follows a RateLimited (HTTP 429) attempt,
the delay before the next attempt is (server retry-after, defaulting to 1
when the header is absent) * 1000 ms — the exponential 2^attempt *
baseDelay delay is overwritten and never used for rate-limited failures —
and the total number of attempts stays bounded by maxRetries + 1 = 6. -/
theorem c6_amended_rate_limit_delay (outcome : ℕ → RiotAttempt) (j : ℕ) (d : ℚ)
    (hd : (makeRiotAPICall outcome).delays[j]? = some d)
    (hrl : (outcome j).isRateLimited = true) :
    d = ((outcome j).retryAfterHeader.getD 1) * 1000 ∧
      (makeRiotAPICall outcome).calls ≤ riotMaxRetries + 1 := by
  have hspec := makeRiotAPICallRun_delays_spec outcome riotMaxRetries 0 j d hd
  constructor
  · have hdval := hspec.2
    simp only [Nat.zero_add] at hdval
    rw [hdval, riotRetryDelay, if_pos hrl]
  · exact makeRiotAPICallRun_calls_le outcome riotMaxRetries 0

/-- C6 amended witness: the first delay of the two-429 run is 1000 ms, the
default retry-after of 1 second. -/
theorem c6_amended_witness :
    (1000 : ℚ) = ((twoRateLimitsThenOk 0).retryAfterHeader.getD 1) * 1000 ∧
      (makeRiotAPICall twoRateLimitsThenOk).calls ≤ riotMaxRetries + 1 :=
  c6_amended_rate_limit_delay twoRateLimitsThenOk 0 1000
    (by
      have h0 : twoRateLimitsThenOk 0 = .fail (some 429) none := rfl
      have h1 : twoRateLimitsThenOk 1 = .fail (some 429) none := rfl
      have h2 : twoRateLimitsThenOk 2 = .ok := rfl
      have hr : (RiotAttempt.fail (some 429) none).isRetryable = true := rfl
      show (makeRiotAPICallRun twoRateLimitsThenOk 5 0).delays[0]? = some 1000
      rw [riotRun_step 4 h0 hr, riotRun_step 3 h1 hr, riotRun_ok 3 h2]
      simp [riotRetryDelay, RiotAttempt.isRateLimited, RiotAttempt.retryAfterHeader])
    rfl

end LolCoach
